import Mathlib

/-!
Verification of the `testdrop` crate (`src/lib.rs`): a destruction-tracking
registry (`TestDrop`) plus a tracked handle (`Item`).

Shallow embedding conventions:
* `TestDrop` is the registry state; Rust's interior mutability
  (`Cell<usize>` / `RefCell<Vec<bool>>`) becomes explicit state passing.
* A Rust panic is modelled as an `Except.error` carrying the panic message.
  Operations that mutate (`add_drop`) return the state at the moment of
  return or panic, paired with the result, so that "panic happened before
  any mutation" is observable.
* `Item.parent` is the address of the owning registry (`&'a TestDrop`
  back-reference); pointer identity of registries becomes equality of
  these address tokens.
-/

/-- State of the `TestDrop` registry: the `drops` counter
(`Cell<usize>`) and the per-item released flags (`RefCell<Vec<bool>>`). -/
structure TestDrop where
  drops : Nat
  is_dropped : List Bool
  deriving Repr, DecidableEq

/-- `TestDrop::new` via `Default`: zero drops, empty slot vector. -/
def TestDrop.new : TestDrop := ⟨0, []⟩

/-- `TestDrop::num_tracked_items`: length of the slot vector. -/
def TestDrop.num_tracked_items (td : TestDrop) : Nat :=
  td.is_dropped.length

/-- `TestDrop::num_dropped_items`: current value of the `drops` counter. -/
def TestDrop.num_dropped_items (td : TestDrop) : Nat :=
  td.drops

/-- The private `TestDrop::is_dropped` accessor: `self.is_dropped.borrow()[id]`.
Out-of-range indexing panics with the standard `Vec` index message, which
names the invalid index. -/
def TestDrop.isDropped (td : TestDrop) (id : Nat) : Except String Bool :=
  match td.is_dropped[id]? with
  | some b => .ok b
  | none => .error ("index out of bounds: the len is " ++
      toString td.is_dropped.length ++ " but the index is " ++ toString id)

/-- An `Item` tracked by `TestDrop`: its immutable `id` and the back-reference
to its owning registry, modelled as the registry's address. -/
structure Item where
  id : Nat
  parent : Nat
  deriving Repr, DecidableEq

/-- `Item::new`. -/
def Item.new (id : Nat) (parent : Nat) : Item := ⟨id, parent⟩

/-- `Item::id`: pure accessor of the immutable identifier. -/
def Item.getId (item : Item) : Nat := item.id

/-- The `PartialEq` impl for `Item`:
`self.id() == other.id() && self.parent as *const _ == other.parent as *const _`. -/
def Item.beq (a b : Item) : Bool :=
  a.getId == b.getId && a.parent == b.parent

instance : BEq Item := ⟨Item.beq⟩

/-- `TestDrop::new_item`: reads `id = self.num_tracked_items()`, pushes a
`false` slot, and returns `(id, Item::new(id, self))` together with the
updated registry state. `addr` is the registry's own address, used to build
the item's back-reference. -/
def TestDrop.new_item (td : TestDrop) (addr : Nat) : (Nat × Item) × TestDrop :=
  let id := td.num_tracked_items
  ((id, Item.new id addr), { td with is_dropped := td.is_dropped ++ [false] })

/-- `TestDrop::assert_drop`: panics when the slot is not `true`, with the
message naming the identifier; otherwise no effect. -/
def TestDrop.assert_drop (td : TestDrop) (id : Nat) : Except String Unit :=
  match td.isDropped id with
  | .error e => .error e
  | .ok true => .ok ()
  | .ok false => .error (toString id ++ " should be dropped, but was not")

/-- `TestDrop::assert_no_drop`: panics when the slot is `true`, with the
message naming the identifier; otherwise no effect. -/
def TestDrop.assert_no_drop (td : TestDrop) (id : Nat) : Except String Unit :=
  match td.isDropped id with
  | .error e => .error e
  | .ok true => .error (toString id ++ " should not be dropped, but was")
  | .ok false => .ok ()

/-- The private `TestDrop::add_drop`, invoked by `Item`'s `Drop` impl.
Checks the slot first: if already `true` it panics with the message naming
the identifier, leaving the state untouched; otherwise it sets the slot and
increments the counter. The returned state is the state at the moment of
return or panic. -/
def TestDrop.add_drop (td : TestDrop) (id : Nat) : TestDrop × Except String Unit :=
  match td.isDropped id with
  | .error e => (td, .error e)
  | .ok true => (td, .error (toString id ++ " is already dropped"))
  | .ok false => (⟨td.drops + 1, td.is_dropped.set id true⟩, .ok ())

/-- The `Drop` impl for `Item`: `self.parent.add_drop(self.id)`. -/
def Item.dropItem (item : Item) (td : TestDrop) : TestDrop × Except String Unit :=
  td.add_drop item.getId

/-- The operations test code can perform on one registry. -/
inductive Op where
  | new_item : Op
  | add_drop : Nat → Op
  | assert_drop : Nat → Op
  | assert_no_drop : Nat → Op
  deriving Repr, DecidableEq

/-- One operation on the registry state; the returned state is the state at
the moment of return or panic. -/
def TestDrop.runOp (td : TestDrop) : Op → TestDrop × Except String Unit
  | .new_item => ((td.new_item 0).2, .ok ())
  | .add_drop id => td.add_drop id
  | .assert_drop id => (td, td.assert_drop id)
  | .assert_no_drop id => (td, td.assert_no_drop id)

/-- Run a sequence of operations from a given state, stopping at the first
panic. -/
def runFrom (td : TestDrop) : List Op → TestDrop × Except String Unit
  | [] => (td, .ok ())
  | op :: ops =>
    match td.runOp op with
    | (td2, .ok ()) => runFrom td2 ops
    | (td2, .error e) => (td2, .error e)

/-- Run a sequence of operations from `TestDrop::new`. -/
def run (ops : List Op) : TestDrop × Except String Unit :=
  runFrom TestDrop.new ops

/-- The state after `n` consecutive `new_item` calls from a fresh registry. -/
def mintN : Nat → TestDrop
  | 0 => TestDrop.new
  | n + 1 => ((mintN n).new_item 0).2

/-- The identifiers returned by `n` consecutive `new_item` calls, in mint
order. -/
def mintIds (n : Nat) : List Nat :=
  (List.range n).map fun k => ((mintN k).new_item 0).1.1

/-! Helper lemmas shared by the claim theorems. -/

/-- Setting a slot that currently holds `false` to `true` increments the
number of `true` entries by one. -/
theorem count_set_true (l : List Bool) (i : Nat) (h : l[i]? = some false) :
    (l.set i true).count true = l.count true + 1 := by
  induction l generalizing i with
  | nil => simp at h
  | cons b bs ih =>
    cases i with
    | zero =>
      simp at h
      subst h
      simp [List.count_cons]
    | succ n =>
      simp at h
      simp [List.set, List.count_cons, ih n h]
      omega

/-- The core registry invariant: the drop counter equals the number of `true`
slots. -/
def dropsInvariant (td : TestDrop) : Prop :=
  td.drops = td.is_dropped.count true

/-- Every single operation preserves the drop-counter invariant, including
the state left behind by a panic. -/
theorem dropsInvariant_runOp (td : TestDrop) (op : Op) (h : dropsInvariant td) :
    dropsInvariant (td.runOp op).1 := by
  cases op with
  | new_item =>
    simp only [dropsInvariant, TestDrop.runOp, TestDrop.new_item] at h ⊢
    simp [List.count_append, h]
  | add_drop id =>
    simp only [dropsInvariant, TestDrop.runOp, TestDrop.add_drop, TestDrop.isDropped] at h ⊢
    cases hb : td.is_dropped[id]? with
    | none => simpa [hb] using h
    | some b =>
      cases b with
      | true => simpa [hb] using h
      | false => simp [hb, count_set_true td.is_dropped id hb, h]
  | assert_drop id => exact h
  | assert_no_drop id => exact h

/-- Running any operation sequence preserves the drop-counter invariant. -/
theorem dropsInvariant_runFrom (ops : List Op) :
    ∀ td : TestDrop, dropsInvariant td → dropsInvariant (runFrom td ops).1 := by
  induction ops with
  | nil => intro td h; exact h
  | cons op ops ih =>
    intro td h
    have h2 := dropsInvariant_runOp td op h
    cases hr : td.runOp op with
    | mk td2 r =>
      rw [hr] at h2
      cases r with
      | ok u =>
        cases u
        simpa [runFrom, hr] using ih td2 h2
      | error e => simpa [runFrom, hr] using h2

/-- After `n` consecutive mints the registry tracks exactly `n` items. -/
theorem mintN_num_tracked_items (n : Nat) : (mintN n).num_tracked_items = n := by
  induction n with
  | zero => rfl
  | succ n ih =>
    simp only [mintN, TestDrop.new_item, TestDrop.num_tracked_items] at ih ⊢
    simp [ih]

/-! The claim theorems. -/

/-- Claim C1: for every sequence of mint operations on one registry,
`new_item` returns the current slot count as the identifier (so the
identifiers of consecutive mints are `0, 1, 2, …` in mint order, with no
gaps or reuse, regardless of earlier releases), appends exactly one `false`
slot, increases the tracked-item count by one, and never fails. -/
theorem new_item_mints_sequential_ids :
    (∀ (td : TestDrop) (addr : Nat),
        (td.new_item addr).1.1 = td.num_tracked_items ∧
        ((td.new_item addr).2).is_dropped = td.is_dropped ++ [false] ∧
        ((td.new_item addr).2).num_tracked_items = td.num_tracked_items + 1 ∧
        td.runOp Op.new_item = ((td.new_item 0).2, Except.ok ())) ∧
    ∀ n : Nat, mintIds n = List.range n := by
  constructor
  · intro td addr
    refine ⟨rfl, rfl, ?_, rfl⟩
    simp [TestDrop.new_item, TestDrop.num_tracked_items]
  · intro n
    have h : ∀ k : Nat, ((mintN k).new_item 0).1.1 = k := fun k =>
      mintN_num_tracked_items k
    rw [mintIds, List.map_congr_left fun k _ => h k, List.map_id']

/-- Claim C2: in every registry state reachable from `new` by any sequence
of operations (including the state left behind by a panic), the `drops`
counter equals the number of `true` entries in the slot vector; the slot
vector's length never shrinks under any operation, and it changes only via
`new_item`. -/
theorem registry_invariant_holds (ops : List Op) :
    (run ops).1.drops = ((run ops).1.is_dropped.count true) ∧
    ∀ (td : TestDrop) (op : Op),
      td.is_dropped.length ≤ ((td.runOp op).1).is_dropped.length ∧
      (((td.runOp op).1).is_dropped.length ≠ td.is_dropped.length →
        op = Op.new_item) := by
  constructor
  · exact dropsInvariant_runFrom ops TestDrop.new rfl
  · intro td op
    cases op with
    | new_item =>
      refine ⟨?_, fun hne => rfl⟩
      simp [TestDrop.runOp, TestDrop.new_item]
    | add_drop id =>
      have hlen : ((td.runOp (Op.add_drop id)).1).is_dropped.length =
          td.is_dropped.length := by
        simp only [TestDrop.runOp, TestDrop.add_drop, TestDrop.isDropped]
        cases hb : td.is_dropped[id]? with
        | none => simp [hb]
        | some b => cases b with
          | true => simp [hb]
          | false => simp [hb]
      exact ⟨le_of_eq hlen.symm, fun hne => absurd hlen hne⟩
    | assert_drop id => exact ⟨le_refl _, fun hne => absurd rfl hne⟩
    | assert_no_drop id => exact ⟨le_refl _, fun hne => absurd rfl hne⟩

/-- Witness for C2: the invariant at a concrete run, and the
length-changing case discharged at `new_item` on a fresh registry. -/
theorem registry_invariant_holds_witness :
    (run [Op.new_item, Op.add_drop 0]).1.drops =
      ((run [Op.new_item, Op.add_drop 0]).1.is_dropped.count true) ∧
    ((TestDrop.new.runOp Op.new_item).1).is_dropped.length ≠
      TestDrop.new.is_dropped.length ∧
    Op.new_item = Op.new_item :=
  ⟨(registry_invariant_holds [Op.new_item, Op.add_drop 0]).1,
   by decide,
   ((registry_invariant_holds []).2 TestDrop.new Op.new_item).2 (by decide)⟩

/-- Claim C3: for an in-range identifier whose slot is `false`, `add_drop`
(invoked by the `Drop` impl) returns successfully, sets exactly that slot
to `true`, increments `drops` by one, leaves every other slot and the
tracked-item count unchanged; afterwards `assert_drop` succeeds and
`assert_no_drop` panics for that identifier; and the `drops` counter never
decreases under any operation. -/
theorem add_drop_releases_exactly_one (td : TestDrop) (id : Nat)
    (h : td.is_dropped[id]? = some false) :
    (td.add_drop id = (⟨td.drops + 1, td.is_dropped.set id true⟩, Except.ok ()) ∧
      ((td.add_drop id).1).is_dropped[id]? = some true ∧
      ((td.add_drop id).1).drops = td.drops + 1 ∧
      (∀ j : Nat, j ≠ id →
        ((td.add_drop id).1).is_dropped[j]? = td.is_dropped[j]?) ∧
      ((td.add_drop id).1).num_tracked_items = td.num_tracked_items ∧
      ((td.add_drop id).1).assert_drop id = Except.ok () ∧
      ((td.add_drop id).1).assert_no_drop id =
        Except.error (toString id ++ " should not be dropped, but was") ∧
      (∀ addr : Nat, (Item.new id addr).dropItem td = td.add_drop id)) ∧
    ∀ (s : TestDrop) (op : Op), s.drops ≤ ((s.runOp op).1).drops := by
  have heq : td.add_drop id =
      (⟨td.drops + 1, td.is_dropped.set id true⟩, Except.ok ()) := by
    simp [TestDrop.add_drop, TestDrop.isDropped, h]
  have hset : (td.is_dropped.set id true)[id]? = some true :=
    List.getElem?_set_eq_of_lt true (List.getElem?_eq_some.mp h).1
  constructor
  · refine ⟨heq, ?_, ?_, ?_, ?_, ?_, ?_, fun addr => rfl⟩
    · rw [heq]; exact hset
    · rw [heq]
    · intro j hj
      rw [heq]
      exact List.getElem?_set_ne fun he => hj he.symm
    · rw [heq]
      simp [TestDrop.num_tracked_items]
    · rw [heq]
      simp [TestDrop.assert_drop, TestDrop.isDropped, hset]
    · rw [heq]
      simp [TestDrop.assert_no_drop, TestDrop.isDropped, hset]
  · intro s op
    cases op with
    | new_item => exact le_refl _
    | add_drop i =>
      simp only [TestDrop.runOp, TestDrop.add_drop, TestDrop.isDropped]
      cases hb : s.is_dropped[i]? with
      | none => simp [hb]
      | some b => cases b with
        | true => simp [hb]
        | false => simp [hb]
    | assert_drop i => exact le_refl _
    | assert_no_drop i => exact le_refl _

/-- Witness for C3 at the registry with one not-yet-released slot. -/
theorem add_drop_releases_exactly_one_witness :
    (TestDrop.mk 0 [false]).is_dropped[0]? = some false ∧
    (((TestDrop.mk 0 [false]).add_drop 0 =
        (⟨(TestDrop.mk 0 [false]).drops + 1,
          (TestDrop.mk 0 [false]).is_dropped.set 0 true⟩, Except.ok ()) ∧
      (((TestDrop.mk 0 [false]).add_drop 0).1).is_dropped[0]? = some true ∧
      (((TestDrop.mk 0 [false]).add_drop 0).1).drops =
        (TestDrop.mk 0 [false]).drops + 1 ∧
      (∀ j : Nat, j ≠ 0 →
        (((TestDrop.mk 0 [false]).add_drop 0).1).is_dropped[j]? =
          (TestDrop.mk 0 [false]).is_dropped[j]?) ∧
      (((TestDrop.mk 0 [false]).add_drop 0).1).num_tracked_items =
        (TestDrop.mk 0 [false]).num_tracked_items ∧
      (((TestDrop.mk 0 [false]).add_drop 0).1).assert_drop 0 = Except.ok () ∧
      (((TestDrop.mk 0 [false]).add_drop 0).1).assert_no_drop 0 =
        Except.error (toString 0 ++ " should not be dropped, but was") ∧
      (∀ addr : Nat,
        (Item.new 0 addr).dropItem (TestDrop.mk 0 [false]) =
          (TestDrop.mk 0 [false]).add_drop 0)) ∧
     ∀ (s : TestDrop) (op : Op), s.drops ≤ ((s.runOp op).1).drops) :=
  ⟨by decide, add_drop_releases_exactly_one (TestDrop.mk 0 [false]) 0 (by decide)⟩

/-- Claim C4: invoking `add_drop` on an identifier whose slot is already
`true` panics with a message naming that identifier and leaves the state
unchanged; the first release of a fresh identifier never panics, only the
second one does. -/
theorem double_release_fatal (td : TestDrop) (id : Nat)
    (h : td.is_dropped[id]? = some false) :
    (td.add_drop id).2 = Except.ok () ∧
    ((td.add_drop id).1).add_drop id =
      ((td.add_drop id).1, Except.error (toString id ++ " is already dropped")) ∧
    ∀ s : TestDrop, s.is_dropped[id]? = some true →
      s.add_drop id = (s, Except.error (toString id ++ " is already dropped")) := by
  have hset : (td.is_dropped.set id true)[id]? = some true :=
    List.getElem?_set_eq_of_lt true (List.getElem?_eq_some.mp h).1
  have hall : ∀ s : TestDrop, s.is_dropped[id]? = some true →
      s.add_drop id = (s, Except.error (toString id ++ " is already dropped")) := by
    intro s hs
    simp [TestDrop.add_drop, TestDrop.isDropped, hs]
  refine ⟨?_, ?_, hall⟩
  · simp [TestDrop.add_drop, TestDrop.isDropped, h]
  · refine hall _ ?_
    simp [TestDrop.add_drop, TestDrop.isDropped, h, hset]

/-- Witness for C4: one item, released once then released again. -/
theorem double_release_fatal_witness :
    (TestDrop.mk 0 [false]).is_dropped[0]? = some false ∧
    (((TestDrop.mk 0 [false]).add_drop 0).2 = Except.ok () ∧
     (((TestDrop.mk 0 [false]).add_drop 0).1).add_drop 0 =
       (((TestDrop.mk 0 [false]).add_drop 0).1,
        Except.error (toString 0 ++ " is already dropped")) ∧
     ∀ s : TestDrop, s.is_dropped[0]? = some true →
       s.add_drop 0 = (s, Except.error (toString 0 ++ " is already dropped"))) :=
  ⟨by decide, double_release_fatal (TestDrop.mk 0 [false]) 0 (by decide)⟩

/-- Claim C5: for an in-range identifier, `assert_drop` succeeds exactly
when the slot is `true`; when the slot is `false` it panics with a message
naming the identifier; and `assert_drop` never changes the registry
state. -/
theorem assert_drop_succeeds_iff_released (td : TestDrop) (id : Nat) (b : Bool)
    (h : td.is_dropped[id]? = some b) :
    (td.assert_drop id = Except.ok () ↔ b = true) ∧
    (b = false → td.assert_drop id =
      Except.error (toString id ++ " should be dropped, but was not")) ∧
    ∀ (s : TestDrop) (i : Nat), (s.runOp (Op.assert_drop i)).1 = s := by
  refine ⟨?_, ?_, fun s i => rfl⟩
  · cases b <;> simp [TestDrop.assert_drop, TestDrop.isDropped, h]
  · intro hb
    subst hb
    simp [TestDrop.assert_drop, TestDrop.isDropped, h]

/-- Witness for C5 at a registry with one not-released slot. -/
theorem assert_drop_succeeds_iff_released_witness :
    (TestDrop.mk 0 [false]).is_dropped[0]? = some false ∧
    (((TestDrop.mk 0 [false]).assert_drop 0 = Except.ok () ↔ false = true) ∧
     (false = false → (TestDrop.mk 0 [false]).assert_drop 0 =
       Except.error (toString 0 ++ " should be dropped, but was not")) ∧
     ∀ (s : TestDrop) (i : Nat), (s.runOp (Op.assert_drop i)).1 = s) :=
  ⟨by decide,
   assert_drop_succeeds_iff_released (TestDrop.mk 0 [false]) 0 false (by decide)⟩

/-- Claim C6: for an in-range identifier, `assert_no_drop` succeeds exactly
when the slot is `false`; when the slot is `true` it panics with a message
naming the identifier; `assert_no_drop` never changes the registry state;
and for a freshly minted item `assert_no_drop` succeeds while `assert_drop`
panics. -/
theorem assert_no_drop_succeeds_iff_not_released (td : TestDrop) (id : Nat)
    (b : Bool) (h : td.is_dropped[id]? = some b) :
    (td.assert_no_drop id = Except.ok () ↔ b = false) ∧
    (b = true → td.assert_no_drop id =
      Except.error (toString id ++ " should not be dropped, but was")) ∧
    (∀ (s : TestDrop) (i : Nat), (s.runOp (Op.assert_no_drop i)).1 = s) ∧
    ∀ (s : TestDrop) (addr : Nat),
      ((s.new_item addr).2).assert_no_drop (s.new_item addr).1.1 =
        Except.ok () ∧
      ((s.new_item addr).2).assert_drop (s.new_item addr).1.1 =
        Except.error (toString (s.new_item addr).1.1 ++
          " should be dropped, but was not") := by
  have hfresh : ∀ (s : TestDrop) (addr : Nat),
      ((s.new_item addr).2).is_dropped[(s.new_item addr).1.1]? = some false := by
    intro s addr
    simp only [TestDrop.new_item, TestDrop.num_tracked_items]
    exact List.getElem?_concat_length s.is_dropped false
  refine ⟨?_, ?_, fun s i => rfl, fun s addr => ⟨?_, ?_⟩⟩
  · cases b <;> simp [TestDrop.assert_no_drop, TestDrop.isDropped, h]
  · intro hb
    subst hb
    simp [TestDrop.assert_no_drop, TestDrop.isDropped, h]
  · simp [TestDrop.assert_no_drop, TestDrop.isDropped, hfresh s addr]
  · simp [TestDrop.assert_drop, TestDrop.isDropped, hfresh s addr]

/-- Witness for C6 at a registry with one released slot. -/
theorem assert_no_drop_succeeds_iff_not_released_witness :
    (TestDrop.mk 1 [true]).is_dropped[0]? = some true ∧
    (((TestDrop.mk 1 [true]).assert_no_drop 0 = Except.ok () ↔ true = false) ∧
     (true = true → (TestDrop.mk 1 [true]).assert_no_drop 0 =
       Except.error (toString 0 ++ " should not be dropped, but was")) ∧
     (∀ (s : TestDrop) (i : Nat), (s.runOp (Op.assert_no_drop i)).1 = s) ∧
     ∀ (s : TestDrop) (addr : Nat),
       ((s.new_item addr).2).assert_no_drop (s.new_item addr).1.1 =
         Except.ok () ∧
       ((s.new_item addr).2).assert_drop (s.new_item addr).1.1 =
         Except.error (toString (s.new_item addr).1.1 ++
           " should be dropped, but was not")) :=
  ⟨by decide,
   assert_no_drop_succeeds_iff_not_released (TestDrop.mk 1 [true]) 0 true
     (by decide)⟩

/-- Claim C7: for an identifier at or beyond the tracked-item count, both
assert operations panic with the out-of-bounds diagnostic, which states the
invalid identifier. -/
theorem out_of_range_assert_fails (td : TestDrop) (id : Nat)
    (h : td.num_tracked_items ≤ id) :
    td.assert_drop id = Except.error ("index out of bounds: the len is " ++
      toString td.num_tracked_items ++ " but the index is " ++ toString id) ∧
    td.assert_no_drop id = Except.error ("index out of bounds: the len is " ++
      toString td.num_tracked_items ++ " but the index is " ++ toString id) := by
  have hn : td.is_dropped[id]? = none := List.getElem?_eq_none h
  constructor <;>
    simp [TestDrop.assert_drop, TestDrop.assert_no_drop, TestDrop.isDropped,
      TestDrop.num_tracked_items, hn]

/-- Witness for C7: querying identifier 2 on a registry tracking one item. -/
theorem out_of_range_assert_fails_witness :
    (TestDrop.mk 0 [false]).num_tracked_items ≤ 2 ∧
    ((TestDrop.mk 0 [false]).assert_drop 2 =
      Except.error ("index out of bounds: the len is " ++
        toString (TestDrop.mk 0 [false]).num_tracked_items ++
        " but the index is " ++ toString 2) ∧
     (TestDrop.mk 0 [false]).assert_no_drop 2 =
      Except.error ("index out of bounds: the len is " ++
        toString (TestDrop.mk 0 [false]).num_tracked_items ++
        " but the index is " ++ toString 2)) :=
  ⟨by decide, out_of_range_assert_fails (TestDrop.mk 0 [false]) 2 (by decide)⟩

/-- Claim C8: two items compare equal exactly when they have the same
identifier and the same owning registry (registry compared by address,
i.e. identity); items with the same identifier under distinct registries
are never equal. -/
theorem item_eq_iff_same_id_and_registry :
    (∀ a b : Item, (a == b) = true ↔ (a.getId = b.getId ∧ a.parent = b.parent)) ∧
    ∀ pa pb : Nat, pa ≠ pb → (Item.new 0 pa == Item.new 0 pb) = false := by
  have hiff : ∀ a b : Item,
      (a == b) = true ↔ (a.getId = b.getId ∧ a.parent = b.parent) := by
    intro a b
    show Item.beq a b = true ↔ _
    simp [Item.beq, Item.getId]
  refine ⟨hiff, fun pa pb hne => ?_⟩
  by_contra hc
  have : (Item.new 0 pa == Item.new 0 pb) = true := by
    cases he : (Item.new 0 pa == Item.new 0 pb) with
    | true => rfl
    | false => exact absurd he hc
  exact hne ((hiff (Item.new 0 pa) (Item.new 0 pb)).mp this).2

/-- Witness for C8: items with identifier 0 under registries at distinct
addresses 0 and 1 are not equal. -/
theorem item_eq_iff_same_id_and_registry_witness :
    (0 : Nat) ≠ 1 ∧ (Item.new 0 0 == Item.new 0 1) = false :=
  ⟨by decide, item_eq_iff_same_id_and_registry.2 0 1 (by decide)⟩

/-- Claim C9: the identifier returned by `new_item` equals the `id` of the
returned item, both equal the slot count at the call, and an item's `id` is
exactly the value it was created with (the embedding has no operation that
mutates an item, so it never changes). -/
theorem new_item_returns_matching_id (td : TestDrop) (addr : Nat) :
    (td.new_item addr).1.1 = ((td.new_item addr).1.2).getId ∧
    ((td.new_item addr).1.2).getId = td.num_tracked_items ∧
    ∀ i p : Nat, (Item.new i p).getId = i :=
  ⟨rfl, rfl, fun _ _ => rfl⟩

/-- Claim C10: when `add_drop` panics (double release or out-of-range), the
registry state at the moment of the panic is exactly the state before the
call: the check precedes any mutation. -/
theorem add_drop_failure_leaves_state_unchanged (td : TestDrop) (id : Nat)
    (e : String) (h : (td.add_drop id).2 = Except.error e) :
    ((td.add_drop id).1).is_dropped = td.is_dropped ∧
    ((td.add_drop id).1).drops = td.drops := by
  simp only [TestDrop.add_drop, TestDrop.isDropped] at h ⊢
  cases hb : td.is_dropped[id]? with
  | none => simp [hb]
  | some b =>
    cases b with
    | true => simp [hb]
    | false => simp [hb] at h

/-- Witness for C10: a second release of identifier 0 fails and leaves the
one-slot registry unchanged. -/
theorem add_drop_failure_leaves_state_unchanged_witness :
    ((TestDrop.mk 1 [true]).add_drop 0).2 =
      Except.error ("0 is already dropped") ∧
    ((((TestDrop.mk 1 [true]).add_drop 0).1).is_dropped =
      (TestDrop.mk 1 [true]).is_dropped ∧
     (((TestDrop.mk 1 [true]).add_drop 0).1).drops =
      (TestDrop.mk 1 [true]).drops) :=
  ⟨rfl,
   add_drop_failure_leaves_state_unchanged (TestDrop.mk 1 [true]) 0
     ("0 is already dropped") rfl⟩
